import Mathlib

/-!
Verification development for the swepub repository.

The markdown engine (markdown-it) is an external dependency of the
repository; following the specification, which treats it as an external
collaborator reachable only through "render a string to HTML" interfaces,
every embedded function is parameterized over the engine's block renderer
(`mdRender`) and inline renderer (`renderInline`).  All other logic is
translated directly from the Python sources.  Python strings are modelled
as Lean `String` values, with character-level operations on `String.data`;
the modelled whitespace and word-character classes are the ASCII ones,
which cover every input appearing in the repository's data and tests.
-/

namespace Swepub

/-- Count of leading copies of the character `c` at the start of `s`,
modelling Python `re.match` against a repeated-character pattern such as
`"#+"` or `"\t+"` (length of the match at position 0). -/
def countLeading (c : Char) (s : String) : Nat :=
  (s.data.takeWhile (fun d => d == c)).length

/-- Python truthiness test `not line.strip()`: the line consists only of
whitespace characters. -/
def pyIsBlank (s : String) : Bool :=
  s.data.all Char.isWhitespace

/-- Python slice `s[n:]`, counted in characters. -/
def strDrop (s : String) (n : Nat) : String := ⟨s.data.drop n⟩

/-- Python `s.startswith(pre)`. -/
def pyStartsWith (s pre : String) : Bool := pre.data.isPrefixOf s.data

/-- Python `str.split(sep)` with an explicit one-character separator:
splits at every occurrence, keeping empty fields, and returns `[[]]` on
the empty string. -/
def splitChar (sep : Char) : List Char → List (List Char)
  | [] => [[]]
  | c :: rest =>
    if c == sep then [] :: splitChar sep rest
    else
      match splitChar sep rest with
      | [] => [[c]]
      | w :: ws => (c :: w) :: ws

/-- Python `str.splitlines` restricted to `"\n"` line terminators (the
only terminator occurring in the repository's data): split on newlines
and drop the final empty field produced by a trailing newline. -/
def pySplitlines (s : String) : List String :=
  let parts := splitChar '\n' s.data
  (if parts.getLast? = some [] then parts.dropLast else parts).map
    (fun l => (⟨l⟩ : String))

/-- Python `str.strip()` on a character list (ASCII whitespace). -/
def pyStripList (l : List Char) : List Char :=
  ((l.dropWhile Char.isWhitespace).reverse.dropWhile Char.isWhitespace).reverse

/-- Python `str.strip()`. -/
def pyStrip (s : String) : String := ⟨pyStripList s.data⟩

/-- Running sums of a list of naturals, modelling `itertools.accumulate`. -/
def pyAccumulate : Nat → List Nat → List Nat
  | _, [] => []
  | acc, x :: xs => (acc + x) :: pyAccumulate (acc + x) xs

/-- Join a list of character lists with a single separator character,
modelling `sep.join(...)`. -/
def joinChar (sep : Char) : List (List Char) → List Char
  | [] => []
  | [w] => w
  | w :: ws => w ++ sep :: joinChar sep ws

namespace Renderers

/-! Shallow embedding of `src/renderers.py`. -/

/-- Translation of a single character under the `poem_trans` table of
renderers.py (`str.maketrans` with `<`, `>`, `"` mapped to escaped
Unicode sequences). -/
def poemTransChar (c : Char) : String :=
  if c == '<' then "\\u003c"
  else if c == '>' then "\\u003e"
  else if c == '"' then "\\u0022"
  else String.singleton c

/-- Python `str.translate(poem_trans)`. -/
def poemTranslate (s : String) : String :=
  ⟨s.data.foldr (fun c acc => (poemTransChar c).data ++ acc) []⟩

/-- Python `str.replace("\t", "-> ")`. -/
def replaceTabArrow (s : String) : String :=
  ⟨s.data.foldr (fun c acc => if c == '\t' then '-' :: '>' :: ' ' :: acc else c :: acc) []⟩

/-- Embedding of `_poem_line_to_website_html` from renderers.py. -/
def poem_line_to_website_html (renderInline : String → String) (line : String) : String :=
  poemTranslate (replaceTabArrow (renderInline line) ++ "<br>")

/-- Embedding of `_poem_line_to_ebook_html` from renderers.py; the fatal
`RuntimeError` is modelled as `Except.error` carrying the message. -/
def poem_line_to_ebook_html (renderInline : String → String) (line : String) :
    Except String String :=
  if pyIsBlank line then .ok ("<div class=\"poem\">" ++ "&nbsp;" ++ "</div>\n")
  else
    let cnt := countLeading '\t' line
    if cnt = 0 then .ok ("<div class=\"poem\">" ++ renderInline line ++ "</div>\n")
    else if 4 < cnt then
      .error ("Too many tabs " ++ toString cnt ++ " in line " ++ line)
    else
      .ok ("<div class=\"poem tab" ++ toString cnt ++ "\">"
        ++ renderInline (strDrop line cnt) ++ "</div>\n")

/-- Body-state processing of one poem line inside `_render_poem`'s loop:
block-render the line; if the result starts with an `<hr />` tag append it
raw, otherwise append the target-specific line HTML. -/
def poemBodyStep (mdRender : String → String) (lineToHtml : String → Except String String)
    (body line : String) : Except String String :=
  let mdLine := mdRender line
  if pyStartsWith mdLine "<hr />" then .ok (body ++ mdLine)
  else
    match lineToHtml line with
    | .ok h => .ok (body ++ h)
    | .error e => .error e

/-- Loop of `_render_poem` from renderers.py: `Bool` is the `in_content`
flag, the two strings are the `header_html` and `body_html` accumulators,
and the list holds the remaining lines. -/
def renderPoemLines (mdRender renderInline : String → String)
    (lineToHtml : String → Except String String) :
    Bool → String → String → List String → Except String (String × String)
  | _, header, body, [] => .ok (header, body)
  | true, header, body, line :: rest =>
    match poemBodyStep mdRender lineToHtml body line with
    | .ok body2 => renderPoemLines mdRender renderInline lineToHtml true header body2 rest
    | .error e => .error e
  | false, header, body, line :: rest =>
    if pyIsBlank line then
      renderPoemLines mdRender renderInline lineToHtml false header body rest
    else
      let cnt := countLeading '#' line
      if cnt = 0 then
        match poemBodyStep mdRender lineToHtml body line with
        | .ok body2 => renderPoemLines mdRender renderInline lineToHtml true header body2 rest
        | .error e => .error e
      else if 6 < cnt then
        .error ("Too many hash marks (" ++ toString cnt ++ ")) in line " ++ line)
      else
        renderPoemLines mdRender renderInline lineToHtml false
          (header ++ "<h" ++ toString cnt ++ ">" ++ renderInline (strDrop line cnt)
            ++ "</h" ++ toString cnt ++ ">\n\n")
          body rest

/-- Embedding of `_render_poem` from renderers.py (file reading replaced
by the text argument). -/
def render_poem (mdRender renderInline : String → String)
    (lineToHtml : String → Except String String) (text : String) :
    Except String (String × String) :=
  renderPoemLines mdRender renderInline lineToHtml false "" "" (pySplitlines text)

/-- Embedding of `render_poem_for_ebook` from renderers.py:
`"".join(_render_poem(...))` concatenates header and body. -/
def render_poem_for_ebook (mdRender renderInline : String → String) (text : String) :
    Except String String :=
  (render_poem mdRender renderInline (poem_line_to_ebook_html renderInline) text).map
    (fun hb => hb.1 ++ hb.2)

/-- Embedding of `render_poem_for_website` from renderers.py: the header
is discarded and the body is wrapped in the lazyblock comment. -/
def render_poem_for_website (mdRender renderInline : String → String) (text : String) :
    Except String String :=
  (render_poem mdRender renderInline
      (fun l => .ok (poem_line_to_website_html renderInline l)) text).map
    (fun hb => "<!-- wp:lazyblock/poem \x7b\"poem\":\"" ++ hb.2 ++ "\"\x7d /-->")

/-- Shared tail of the `<hr( /)?>\n*<p>` match: after the rule tag, `\n*`
consumes the maximal run of newlines and `<p>` must follow; returns the
remainder after the match. -/
def hrMatchTail (r2 : List Char) : Option (List Char) :=
  match r2.dropWhile (fun c => c == '\n') with
  | '<' :: 'p' :: '>' :: rem => some rem
  | _ => none

/-- Attempted match of the regex `<hr( /)?>\n*<p>` at the head of `l`
(the optional group is tried greedily); on success returns the remainder
after the match. -/
def hrMatch (l : List Char) : Option (List Char) :=
  match l with
  | '<' :: 'h' :: 'r' :: ' ' :: '/' :: '>' :: r2 => hrMatchTail r2
  | '<' :: 'h' :: 'r' :: '>' :: r2 => hrMatchTail r2
  | _ => none

/-- Scanner of `re.sub("<hr( /)?>\n*<p>", '<p class="noindent">', s)`:
left to right, replacing each non-overlapping match and continuing after
it.  The fuel argument is initialised to the input length, which bounds
the number of scanning steps, so the `0` case is never reached from
`subHrNoindent`. -/
def subHrNoindentGo : Nat → List Char → List Char
  | 0, l => l
  | _ + 1, [] => []
  | fuel + 1, c :: rest =>
    match hrMatch (c :: rest) with
    | some rem => "<p class=\"noindent\">".data ++ subHrNoindentGo fuel rem
    | none => c :: subHrNoindentGo fuel rest

/-- Embedding of the `re.sub` call in `render_story_for_ebook`. -/
def subHrNoindent (s : String) : String := ⟨subHrNoindentGo s.data.length s.data⟩

/-- Embedding of `render_story_for_ebook` from renderers.py. -/
def render_story_for_ebook (mdRender : String → String) (text : String) : String :=
  subHrNoindent (mdRender text)

/-- Translation table `wp_slug_trans` from renderers.py, reproduced
verbatim: each listed character maps to its replacement string (note the
pound sign maps to the empty string). -/
def wp_slug_trans : List (Char × String) := [
    ('ª', "a"),
    ('º', "o"),
    ('À', "A"),
    ('Á', "A"),
    ('Â', "A"),
    ('Ã', "A"),
    ('Ä', "A"),
    ('Å', "A"),
    ('Æ', "AE"),
    ('Ç', "C"),
    ('È', "E"),
    ('É', "E"),
    ('Ê', "E"),
    ('Ë', "E"),
    ('Ì', "I"),
    ('Í', "I"),
    ('Î', "I"),
    ('Ï', "I"),
    ('Ð', "D"),
    ('Ñ', "N"),
    ('Ò', "O"),
    ('Ó', "O"),
    ('Ô', "O"),
    ('Õ', "O"),
    ('Ö', "O"),
    ('Ù', "U"),
    ('Ú', "U"),
    ('Û', "U"),
    ('Ü', "U"),
    ('Ý', "Y"),
    ('Þ', "TH"),
    ('ß', "s"),
    ('à', "a"),
    ('á', "a"),
    ('â', "a"),
    ('ã', "a"),
    ('ä', "a"),
    ('å', "a"),
    ('æ', "ae"),
    ('ç', "c"),
    ('è', "e"),
    ('é', "e"),
    ('ê', "e"),
    ('ë', "e"),
    ('ì', "i"),
    ('í', "i"),
    ('î', "i"),
    ('ï', "i"),
    ('ð', "d"),
    ('ñ', "n"),
    ('ò', "o"),
    ('ó', "o"),
    ('ô', "o"),
    ('õ', "o"),
    ('ö', "o"),
    ('ø', "o"),
    ('ù', "u"),
    ('ú', "u"),
    ('û', "u"),
    ('ü', "u"),
    ('ý', "y"),
    ('þ', "th"),
    ('ÿ', "y"),
    ('Ø', "O"),
    ('Ā', "A"),
    ('ā', "a"),
    ('Ă', "A"),
    ('ă', "a"),
    ('Ą', "A"),
    ('ą', "a"),
    ('Ć', "C"),
    ('ć', "c"),
    ('Ĉ', "C"),
    ('ĉ', "c"),
    ('Ċ', "C"),
    ('ċ', "c"),
    ('Č', "C"),
    ('č', "c"),
    ('Ď', "D"),
    ('ď', "d"),
    ('Đ', "D"),
    ('đ', "d"),
    ('Ē', "E"),
    ('ē', "e"),
    ('Ĕ', "E"),
    ('ĕ', "e"),
    ('Ė', "E"),
    ('ė', "e"),
    ('Ę', "E"),
    ('ę', "e"),
    ('Ě', "E"),
    ('ě', "e"),
    ('Ĝ', "G"),
    ('ĝ', "g"),
    ('Ğ', "G"),
    ('ğ', "g"),
    ('Ġ', "G"),
    ('ġ', "g"),
    ('Ģ', "G"),
    ('ģ', "g"),
    ('Ĥ', "H"),
    ('ĥ', "h"),
    ('Ħ', "H"),
    ('ħ', "h"),
    ('Ĩ', "I"),
    ('ĩ', "i"),
    ('Ī', "I"),
    ('ī', "i"),
    ('Ĭ', "I"),
    ('ĭ', "i"),
    ('Į', "I"),
    ('į', "i"),
    ('İ', "I"),
    ('ı', "i"),
    ('Ĳ', "IJ"),
    ('ĳ', "ij"),
    ('Ĵ', "J"),
    ('ĵ', "j"),
    ('Ķ', "K"),
    ('ķ', "k"),
    ('ĸ', "k"),
    ('Ĺ', "L"),
    ('ĺ', "l"),
    ('Ļ', "L"),
    ('ļ', "l"),
    ('Ľ', "L"),
    ('ľ', "l"),
    ('Ŀ', "L"),
    ('ŀ', "l"),
    ('Ł', "L"),
    ('ł', "l"),
    ('Ń', "N"),
    ('ń', "n"),
    ('Ņ', "N"),
    ('ņ', "n"),
    ('Ň', "N"),
    ('ň', "n"),
    ('ŉ', "n"),
    ('Ŋ', "N"),
    ('ŋ', "n"),
    ('Ō', "O"),
    ('ō', "o"),
    ('Ŏ', "O"),
    ('ŏ', "o"),
    ('Ő', "O"),
    ('ő', "o"),
    ('Œ', "OE"),
    ('œ', "oe"),
    ('Ŕ', "R"),
    ('ŕ', "r"),
    ('Ŗ', "R"),
    ('ŗ', "r"),
    ('Ř', "R"),
    ('ř', "r"),
    ('Ś', "S"),
    ('ś', "s"),
    ('Ŝ', "S"),
    ('ŝ', "s"),
    ('Ş', "S"),
    ('ş', "s"),
    ('Š', "S"),
    ('š', "s"),
    ('Ţ', "T"),
    ('ţ', "t"),
    ('Ť', "T"),
    ('ť', "t"),
    ('Ŧ', "T"),
    ('ŧ', "t"),
    ('Ũ', "U"),
    ('ũ', "u"),
    ('Ū', "U"),
    ('ū', "u"),
    ('Ŭ', "U"),
    ('ŭ', "u"),
    ('Ů', "U"),
    ('ů', "u"),
    ('Ű', "U"),
    ('ű', "u"),
    ('Ų', "U"),
    ('ų', "u"),
    ('Ŵ', "W"),
    ('ŵ', "w"),
    ('Ŷ', "Y"),
    ('ŷ', "y"),
    ('Ÿ', "Y"),
    ('Ź', "Z"),
    ('ź', "z"),
    ('Ż', "Z"),
    ('ż', "z"),
    ('Ž', "Z"),
    ('ž', "z"),
    ('ſ', "s"),
    ('Ə', "E"),
    ('ǝ', "e"),
    ('Ș', "S"),
    ('ș', "s"),
    ('Ț', "T"),
    ('ț', "t"),
    ('€', "E"),
    ('£', ""),
    ('Ơ', "O"),
    ('ơ', "o"),
    ('Ư', "U"),
    ('ư', "u"),
    ('Ầ', "A"),
    ('ầ', "a"),
    ('Ằ', "A"),
    ('ằ', "a"),
    ('Ề', "E"),
    ('ề', "e"),
    ('Ồ', "O"),
    ('ồ', "o"),
    ('Ờ', "O"),
    ('ờ', "o"),
    ('Ừ', "U"),
    ('ừ', "u"),
    ('Ỳ', "Y"),
    ('ỳ', "y"),
    ('Ả', "A"),
    ('ả', "a"),
    ('Ẩ', "A"),
    ('ẩ', "a"),
    ('Ẳ', "A"),
    ('ẳ', "a"),
    ('Ẻ', "E"),
    ('ẻ', "e"),
    ('Ể', "E"),
    ('ể', "e"),
    ('Ỉ', "I"),
    ('ỉ', "i"),
    ('Ỏ', "O"),
    ('ỏ', "o"),
    ('Ổ', "O"),
    ('ổ', "o"),
    ('Ở', "O"),
    ('ở', "o"),
    ('Ủ', "U"),
    ('ủ', "u"),
    ('Ử', "U"),
    ('ử', "u"),
    ('Ỷ', "Y"),
    ('ỷ', "y"),
    ('Ẫ', "A"),
    ('ẫ', "a"),
    ('Ẵ', "A"),
    ('ẵ', "a"),
    ('Ẽ', "E"),
    ('ẽ', "e"),
    ('Ễ', "E"),
    ('ễ', "e"),
    ('Ỗ', "O"),
    ('ỗ', "o"),
    ('Ỡ', "O"),
    ('ỡ', "o"),
    ('Ữ', "U"),
    ('ữ', "u"),
    ('Ỹ', "Y"),
    ('ỹ', "y"),
    ('Ấ', "A"),
    ('ấ', "a"),
    ('Ắ', "A"),
    ('ắ', "a"),
    ('Ế', "E"),
    ('ế', "e"),
    ('Ố', "O"),
    ('ố', "o"),
    ('Ớ', "O"),
    ('ớ', "o"),
    ('Ứ', "U"),
    ('ứ', "u"),
    ('Ạ', "A"),
    ('ạ', "a"),
    ('Ậ', "A"),
    ('ậ', "a"),
    ('Ặ', "A"),
    ('ặ', "a"),
    ('Ẹ', "E"),
    ('ẹ', "e"),
    ('Ệ', "E"),
    ('ệ', "e"),
    ('Ị', "I"),
    ('ị', "i"),
    ('Ọ', "O"),
    ('ọ', "o"),
    ('Ộ', "O"),
    ('ộ', "o"),
    ('Ợ', "O"),
    ('ợ', "o"),
    ('Ụ', "U"),
    ('ụ', "u"),
    ('Ự', "U"),
    ('ự', "u"),
    ('Ỵ', "Y"),
    ('ỵ', "y"),
    ('ɑ', "a"),
    ('Ǖ', "U"),
    ('ǖ', "u"),
    ('Ǘ', "U"),
    ('ǘ', "u"),
    ('Ǎ', "A"),
    ('ǎ', "a"),
    ('Ǐ', "I"),
    ('ǐ', "i"),
    ('Ǒ', "O"),
    ('ǒ', "o"),
    ('Ǔ', "U"),
    ('ǔ', "u"),
    ('Ǚ', "U"),
    ('ǚ', "u"),
    ('Ǜ', "U"),
    ('ǜ', "u")
]

/-- Python `str.translate(wp_slug_trans)`: characters in the table are
replaced by their (possibly empty) replacement string, all others kept. -/
def wpTranslate (s : String) : String :=
  ⟨s.data.foldr
    (fun c acc =>
      (match wp_slug_trans.lookup c with
        | some r => r.data
        | none => [c]) ++ acc)
    []⟩

/-- Characters kept by `re.sub("[^- \\w]", "", title)`: hyphen, space and
word characters (ASCII letters, digits and underscore; the titles this
repository feeds the function contain no non-ASCII word characters after
translation). -/
def keepSlugChar (c : Char) : Bool :=
  c == '-' || c == ' ' || c == '_' || c.isAlphanum

/-- Normalization part of `title_to_slug`: translate, then remove every
character that is not a word character, space or hyphen. -/
def normalize_title (title : String) : String :=
  ⟨(wpTranslate title).data.filter keepSlugChar⟩

/-- Lowercased word list inside `title_to_slug`:
`title.lower().split(" ")`. -/
def slugWords (title : String) : List (List Char) :=
  splitChar ' ' ((normalize_title title).data.map Char.toLower)

/-- Embedding of `title_to_slug` from renderers.py: cumulative lengths
(each word's length plus one for the separator), truncation strictly
before the first prefix exceeding 40 (the `next`/`suppress(StopIteration)`
idiom keeps every word when no prefix exceeds), hyphen join, trailing
hyphens stripped. -/
def title_to_slug (title : String) : String :=
  let words := slugWords title
  let lens := pyAccumulate 0 (words.map (fun w => w.length + 1))
  let kept :=
    match lens.findIdx? (fun n => 40 < n) with
    | some ndx => words.take ndx
    | none => words
  ⟨((joinChar '-' kept).reverse.dropWhile (fun c => c == '-')).reverse⟩


/-- Attempted match of the regex `#+[^#].*\n*` at a position whose first
character is `#`: consume the maximal hash run, one further character of
any kind except `#` (which, the run being maximal, is the next character
when one exists), the maximal run of non-newline characters, then the
maximal run of newlines; returns the remainder after the match, or `none`
when the hashes run to the end of the string. -/
def headerMatch (l : List Char) : Option (List Char) :=
  match l.dropWhile (fun c => c == '#') with
  | [] => none
  | _ :: tail =>
    some ((tail.dropWhile (fun c => c != '\n')).dropWhile (fun c => c == '\n'))

/-- Scanner of `re.sub("#+[^#].*\n*", "", text)`: left to right, removing
each non-overlapping match.  Fuel is initialised to the input length,
which bounds the number of scanning steps. -/
def removeHeaderGo : Nat → List Char → List Char
  | 0, l => l
  | _ + 1, [] => []
  | fuel + 1, c :: rest =>
    if c == '#' then
      match headerMatch (c :: rest) with
      | some rem => removeHeaderGo fuel rem
      | none => c :: removeHeaderGo fuel rest
    else c :: removeHeaderGo fuel rest

/-- Embedding of `_remove_header_markdown` from renderers.py. -/
def remove_header_markdown (text : String) : String :=
  ⟨removeHeaderGo text.data.length text.data⟩

/-- Match of the regex `First published in (.*)\n*` at the head of `l`:
on success returns the captured group (maximal run of non-newline
characters) and the remainder after the match (newlines consumed). -/
def fpMatch (l : List Char) : Option (List Char × List Char) :=
  if "First published in ".data.isPrefixOf l then
    let after := l.drop 19
    some (after.takeWhile (fun c => c != '\n'),
      (after.dropWhile (fun c => c != '\n')).dropWhile (fun c => c == '\n'))
  else none

/-- Leftmost search (`re.search`) for `First published in (.*)\n*`:
returns the text before the match, the captured group and the text after
the match. -/
def fpSearch : List Char → Option (List Char × List Char × List Char)
  | [] => none
  | c :: rest =>
    match fpMatch (c :: rest) with
    | some (grp, after) => some ([], grp, after)
    | none =>
      match fpSearch rest with
      | some (pre, grp, after) => some (c :: pre, grp, after)
      | none => none

/-- Match of the regex `Copyright (\(c\)|©) (\d+).+\n*` at the head of
`l`: on success returns the captured year digits and the remainder after
the match.  The `.+` demands at least one non-newline character after the
digits; when none exists the greedy `\d+` backtracks by one digit, which
is possible only when there are at least two digits. -/
def crMatch (l : List Char) : Option (List Char × List Char) :=
  if "Copyright ".data.isPrefixOf l then
    let a := l.drop 10
    let afterC : Option (List Char) :=
      if "(c) ".data.isPrefixOf a then some (a.drop 4)
      else if "© ".data.isPrefixOf a then some (a.drop 2)
      else none
    match afterC with
    | none => none
    | some b =>
      let ds := b.takeWhile Char.isDigit
      if ds.length = 0 then none
      else
        let afterDs := b.drop ds.length
        if (afterDs.takeWhile (fun c => c != '\n')).length ≠ 0 then
          some (ds, (afterDs.dropWhile (fun c => c != '\n')).dropWhile (fun c => c == '\n'))
        else if 2 ≤ ds.length then
          some (ds.take (ds.length - 1), afterDs.dropWhile (fun c => c == '\n'))
        else none
  else none

/-- Leftmost search (`re.search`) for `Copyright (\(c\)|©) (\d+).+\n*`. -/
def crSearch : List Char → Option (List Char × List Char × List Char)
  | [] => none
  | c :: rest =>
    match crMatch (c :: rest) with
    | some (year, after) => some ([], year, after)
    | none =>
      match crSearch rest with
      | some (pre, year, after) => some (c :: pre, year, after)
      | none => none

/-- Embedding of `render_story_for_website` from renderers.py.  `mdRender`
stands for the engine's block render as performed inside the
`reset_rules` scope with the paragraph and hr rule overrides installed;
the override mechanism itself belongs to the external engine.  Returns
the rendered HTML, the original publication and the copyright year. -/
def render_story_for_website (mdRender renderInline : String → String) (text : String) :
    String × Option String × Option String :=
  let text1 := remove_header_markdown text
  let fp := fpSearch text1.data
  let text2 : String :=
    match fp with
    | some (pre, _, after) => ⟨pre ++ after⟩
    | none => text1
  let origPublication : Option String :=
    match fp with
    | some (_, grp, _) => some (renderInline (pyStrip ⟨grp⟩))
    | none => none
  let cr := crSearch text2.data
  let text3 : String :=
    match cr with
    | some (pre, _, after) => ⟨pre ++ after⟩
    | none => text2
  let copyrightYear : Option String :=
    match cr with
    | some (_, year, _) => some ⟨year⟩
    | none => none
  (mdRender text3, origPublication, copyrightYear)


end Renderers

namespace MdRenderers

/-! Shallow embedding of `src/md_renderers.py`, the older duplicate of the
rendering module.  Its `_ebook_md` engine is configured identically to the
one in renderers.py (commonmark, typographer, replacements and smartquotes
enabled), so both modules' functions are parameterized over the same
abstract engine arguments. -/

/-- Embedding of `_poem_line_to_ebook_html` from md_renderers.py. -/
def poem_line_to_ebook_html (renderInline : String → String) (line : String) :
    Except String String :=
  if pyIsBlank line then .ok ("<div class=\"poem\">" ++ "&nbsp;" ++ "</div>\n")
  else
    let cnt := countLeading '\t' line
    if cnt = 0 then .ok ("<div class=\"poem\">" ++ renderInline line ++ "</div>\n")
    else if 4 < cnt then
      .error ("Too many tabs " ++ toString cnt ++ " in line " ++ line)
    else
      .ok ("<div class=\"poem tab" ++ toString cnt ++ "\">"
        ++ renderInline (strDrop line cnt) ++ "</div>\n")

/-- Body-state processing of one poem line inside md_renderers.py's
`_render_poem` loop. -/
def poemBodyStep (mdRender : String → String) (lineToHtml : String → Except String String)
    (body line : String) : Except String String :=
  let mdLine := mdRender line
  if pyStartsWith mdLine "<hr />" then .ok (body ++ mdLine)
  else
    match lineToHtml line with
    | .ok h => .ok (body ++ h)
    | .error e => .error e

/-- Loop of `_render_poem` from md_renderers.py. -/
def renderPoemLines (mdRender renderInline : String → String)
    (lineToHtml : String → Except String String) :
    Bool → String → String → List String → Except String (String × String)
  | _, header, body, [] => .ok (header, body)
  | true, header, body, line :: rest =>
    match poemBodyStep mdRender lineToHtml body line with
    | .ok body2 => renderPoemLines mdRender renderInline lineToHtml true header body2 rest
    | .error e => .error e
  | false, header, body, line :: rest =>
    if pyIsBlank line then
      renderPoemLines mdRender renderInline lineToHtml false header body rest
    else
      let cnt := countLeading '#' line
      if cnt = 0 then
        match poemBodyStep mdRender lineToHtml body line with
        | .ok body2 => renderPoemLines mdRender renderInline lineToHtml true header body2 rest
        | .error e => .error e
      else if 6 < cnt then
        .error ("Too many hash marks (" ++ toString cnt ++ ")) in line " ++ line)
      else
        renderPoemLines mdRender renderInline lineToHtml false
          (header ++ "<h" ++ toString cnt ++ ">" ++ renderInline (strDrop line cnt)
            ++ "</h" ++ toString cnt ++ ">\n\n")
          body rest

/-- Embedding of `_render_poem` from md_renderers.py. -/
def render_poem (mdRender renderInline : String → String)
    (lineToHtml : String → Except String String) (text : String) :
    Except String (String × String) :=
  renderPoemLines mdRender renderInline lineToHtml false "" "" (pySplitlines text)

/-- Embedding of `render_poem_for_ebook` from md_renderers.py. -/
def render_poem_for_ebook (mdRender renderInline : String → String) (text : String) :
    Except String String :=
  (render_poem mdRender renderInline (poem_line_to_ebook_html renderInline) text).map
    (fun hb => hb.1 ++ hb.2)

/-- Shared tail of md_renderers.py's `<hr( /)?>\n*<p>` match. -/
def hrMatchTail (r2 : List Char) : Option (List Char) :=
  match r2.dropWhile (fun c => c == '\n') with
  | '<' :: 'p' :: '>' :: rem => some rem
  | _ => none

/-- Attempted match of md_renderers.py's regex `<hr( /)?>\n*<p>` at the
head of `l`. -/
def hrMatch (l : List Char) : Option (List Char) :=
  match l with
  | '<' :: 'h' :: 'r' :: ' ' :: '/' :: '>' :: r2 => hrMatchTail r2
  | '<' :: 'h' :: 'r' :: '>' :: r2 => hrMatchTail r2
  | _ => none

/-- Scanner of md_renderers.py's
`re.sub("<hr( /)?>\n*<p>", '<p class="noindent">', s)`. -/
def subHrNoindentGo : Nat → List Char → List Char
  | 0, l => l
  | _ + 1, [] => []
  | fuel + 1, c :: rest =>
    match hrMatch (c :: rest) with
    | some rem => "<p class=\"noindent\">".data ++ subHrNoindentGo fuel rem
    | none => c :: subHrNoindentGo fuel rest

/-- Embedding of the `re.sub` call in md_renderers.py's
`render_story_for_ebook`. -/
def subHrNoindent (s : String) : String := ⟨subHrNoindentGo s.data.length s.data⟩

/-- Embedding of `render_story_for_ebook` from md_renderers.py. -/
def render_story_for_ebook (mdRender : String → String) (text : String) : String :=
  subHrNoindent (mdRender text)

end MdRenderers

namespace IssueInfo

/-! Shallow embedding of the title/author extraction in
`src/issue_info.py`. -/

/-- Parsed markdown token, restricted to the two attributes the extractor
reads: `markup` (`"#"` or `"##"` on heading delimiter tokens, `""` on
inline tokens) and `content` (the literal text of inline tokens).  Token
streams are produced by the external engine's `md.parse`. -/
structure Token where
  markup : String
  content : String
deriving DecidableEq

/-- Model of `itertools.pairwise`. -/
def pairwiseTokens (l : List Token) : List (Token × Token) := l.zip l.tail

/-- Scanner of `re.sub(r"[Bb]y +", "", s)` from issue_info.py: replace
every occurrence, anywhere in the string, of `B` or `b` followed by `y`
and one or more spaces.  Fuel is initialised to the input length. -/
def subByGo : Nat → List Char → List Char
  | 0, l => l
  | _ + 1, [] => []
  | fuel + 1, c :: rest =>
    if c == 'B' || c == 'b' then
      match rest with
      | 'y' :: ' ' :: r2 => subByGo fuel (r2.dropWhile (fun d => d == ' '))
      | _ => c :: subByGo fuel rest
    else c :: subByGo fuel rest

/-- Embedding of `re.sub(r"[Bb]y +", "", s)`. -/
def subBy (s : String) : String := ⟨subByGo s.data.length s.data⟩

/-- Scan of adjacent token pairs inside `get_titles_and_authors`: the
token following the first `"#"`-markup token gives the title, the token
following the first `"##"`-markup token gives the author (with the
`[Bb]y +` substitution applied); the loop breaks once both are found. -/
def scanPairs : Option String → Option String → List (Token × Token) →
    Option String × Option String
  | title, author, [] => (title, author)
  | title, author, (cur, nxt) :: rest =>
    let pr :=
      if cur.markup == "#" && title.isNone then (some nxt.content, author)
      else if cur.markup == "##" && author.isNone then
        (title, some (subBy nxt.content))
      else (title, author)
    if pr.1.isSome && pr.2.isSome then pr
    else scanPairs pr.1 pr.2 rest

/-- Extraction result for a single file's token stream. -/
def extract (content : List Token) : Option String × Option String :=
  scanPairs none none (pairwiseTokens content)

/-- Error text appended when no title was found. -/
def titleErrMsg : String := "No title found. Are you missing a # Markdown heading?"

/-- Error text appended when no author was found. -/
def authorErrMsg : String := "No author found. Are you missing a ## Markdown heading?"

/-- Per-file error list of `get_titles_and_authors`. -/
def fileErrs (content : List Token) : List String :=
  (if (extract content).1.isNone then [titleErrMsg] else [])
    ++ (if (extract content).2.isNone then [authorErrMsg] else [])

/-- Loop of `get_titles_and_authors` from issue_info.py over (path,
parsed token stream) pairs, carrying the `titles`, `authors` and `errs`
accumulators; the combined error is raised only after every file has been
scanned. -/
def gtaLoop : List (String × List Token) → List String → List String → List String →
    Except String (List String × List String)
  | [], titles, authors, errs =>
    if errs.isEmpty then .ok (titles, authors)
    else .error ("Issues finding titles/authors.\n  " ++ String.intercalate "\n  " errs)
  | f :: rest, titles, authors, errs =>
    let (title, author) := extract f.2
    if (fileErrs f.2).isEmpty then
      gtaLoop rest (titles ++ [title.getD ""]) (authors ++ [author.getD ""]) errs
    else
      gtaLoop rest titles authors
        (errs ++ [f.1 ++ ": " ++ String.intercalate " " (fileErrs f.2)])

/-- Embedding of `get_titles_and_authors` from issue_info.py, over pairs
of (file path, token stream parsed by the external engine from the
file's text). -/
def get_titles_and_authors (files : List (String × List Token)) :
    Except String (List String × List String) :=
  gtaLoop files [] [] []

end IssueInfo


/-- Helper: the full hyphen-joined, trailing-hyphen-stripped slug built
from every word of the title (no truncation). -/
def joinedSlug (t : String) : String :=
  ⟨((joinChar '-' (Renderers.slugWords t)).reverse.dropWhile (fun c => c == '-')).reverse⟩

/-- Run of `k` newline characters. -/
def nlRun (k : Nat) : String := ⟨List.replicate k '\n'⟩

/-- Characters that must not appear raw inside the lazyblock JSON string. -/
def jsonUnsafe (c : Char) : Bool := c == '<' || c == '>' || c == '"'

/-- Error entry a file contributes to the batch failure, `none` when the
file has both a title and an author. -/
def fileErrEntry (f : String × List IssueInfo.Token) : Option String :=
  if (IssueInfo.fileErrs f.2).isEmpty then none
  else some (f.1 ++ ": " ++ String.intercalate " " (IssueInfo.fileErrs f.2))


end Swepub


namespace Swepub

open Renderers

/-! Claim theorems. -/

/-- Data of the concatenation of two strings is the concatenation of their
data lists. -/
theorem data_append (s t : String) : (s ++ t).data = s.data ++ t.data := rfl


/-- C6: `title_to_slug` truncates only at word boundaries.  The cumulative
lengths are each word's length plus one for the separator; when no prefix
exceeds 40 every word is kept, and the hyphen-joined result has trailing
hyphens stripped; the claim's concrete truncation example holds. -/
theorem c6_title_to_slug_truncation (t : String)
    (h : ∀ n ∈ pyAccumulate 0 ((Renderers.slugWords t).map (fun w => w.length + 1)),
      n ≤ 40) :
    Renderers.title_to_slug t = joinedSlug t
    ∧ Renderers.title_to_slug "123456789 123456789 12 456 89012 4567 9012"
      = "123456789-123456789-12-456-89012-4567" := by
  constructor
  · unfold Renderers.title_to_slug joinedSlug
    have hfind :
        (pyAccumulate 0 ((Renderers.slugWords t).map (fun w => w.length + 1))).findIdx?
          (fun n => 40 < n) = none := by
      rw [List.findIdx?_eq_none_iff]
      intro n hn
      simpa using Nat.not_lt.mpr (h n hn)
    simp only [hfind]
  · decide

/-- C6 witness: the no-truncation branch applied to a concrete short
title, together with the discharged cumulative-length hypothesis. -/
theorem c6_title_to_slug_truncation_witness :
    (∀ n ∈ pyAccumulate 0 ((Renderers.slugWords "Title to Spaces").map (fun w => w.length + 1)),
      n ≤ 40)
    ∧ Renderers.title_to_slug "Title to Spaces" = "title-to-spaces" := by
  refine ⟨by decide, ?_⟩
  have h := (c6_title_to_slug_truncation "Title to Spaces" (by decide)).1
  rw [h]
  decide

/-- C7: `title_to_slug` is total, and a title whose translated form
consists entirely of characters stripped by the normalization filter
yields the empty slug rather than an error. -/
theorem c7_slug_stripped_title_empty (t : String)
    (h : ∀ c ∈ (Renderers.wpTranslate t).data, Renderers.keepSlugChar c = false) :
    Renderers.title_to_slug t = "" := by
  have hnorm : Renderers.normalize_title t = "" := by
    unfold Renderers.normalize_title
    have : (Renderers.wpTranslate t).data.filter Renderers.keepSlugChar = [] := by
      rw [List.filter_eq_nil_iff]
      intro c hc
      simp [h c hc]
    rw [this]
  have hwords : Renderers.slugWords t = [[]] := by
    unfold Renderers.slugWords
    rw [hnorm]
    decide
  unfold Renderers.title_to_slug
  simp only [hwords]
  decide

/-- C7 witness: a title made only of stripped punctuation yields the
empty slug. -/
theorem c7_slug_stripped_title_empty_witness :
    Renderers.title_to_slug "???" = "" :=
  c7_slug_stripped_title_empty "???" (by decide)


/-- C9 code-bug evaluation: the `[Bb]y +` substitution of the extractor
is not anchored to a leading "by " prefix, so the author name
"Toby Smith" — which does not begin with such a prefix and which the
function's own docstring says is returned unchanged — is altered to
"ToSmith". -/
theorem c9_unanchored_by_substitution :
    IssueInfo.subBy "Toby Smith" = "ToSmith"
    ∧ IssueInfo.get_titles_and_authors
        [("piece.md",
          [⟨"#", ""⟩, ⟨"", "Title"⟩, ⟨"#", ""⟩,
           ⟨"##", ""⟩, ⟨"", "Toby Smith"⟩, ⟨"##", ""⟩])]
      = .ok (["Title"], ["ToSmith"]) :=
  ⟨rfl, rfl⟩

/-- Helper: a string with a positive count of some leading non-whitespace
character is not blank. -/
theorem not_blank_of_countLeading_pos (c : Char) (s : String)
    (hc : c.isWhitespace = false) (h : 0 < countLeading c s) :
    pyIsBlank s = false := by
  unfold countLeading at h
  unfold pyIsBlank
  cases hd : s.data with
  | nil => rw [hd] at h; simp at h
  | cons a l =>
    rw [hd] at h
    by_cases hac : (a == c) = true
    · have ha : a = c := by simpa using hac
      subst ha
      simp [List.all_cons, hc]
    · rw [List.takeWhile_cons_of_neg (by simpa using hac)] at h
      simp at h

/-- Helper: merging the rendered level-6 heading fragments into literal
`<h6>` tags. -/
theorem heading6_append (H X : String) :
    H ++ "<h" ++ toString 6 ++ ">" ++ X ++ "</h" ++ toString 6 ++ ">\n\n"
    = H ++ "<h6>" ++ X ++ "</h6>\n\n" := by
  apply String.ext
  have h2 : (toString 6 : String).data = ['6'] := rfl
  simp only [String.data_append, h2]
  simp

/-- C1 counterexample: a body line consisting of five tab characters and
nothing else reaches the blank-line branch of the ebook line renderer —
it yields the non-breaking-space verse element and raises no error, even
though it is a body line with five leading tabs. -/
theorem c1_five_tab_blank_line_counterexample :
    countLeading '\t' "\t\t\t\t\t" = 5
    ∧ Renderers.poem_line_to_ebook_html (fun s => s) "\t\t\t\t\t"
      = .ok "<div class=\"poem\">&nbsp;</div>\n" :=
  ⟨by decide, rfl⟩

/-- C1 (amended): in header state a line beginning with exactly 6 hash
marks appends an `<h6>` heading (with the marks stripped and the rest
inline-rendered) and continues, while a line with 7 or more hash marks
raises the fatal error; for the ebook target a body line with
non-whitespace content beginning with 1-4 tabs gets class `tab{count}`
with the leading tabs stripped before inline rendering, while such a line
with 5 or more leading tabs raises the fatal error (a whitespace-only
line takes the blank-line branch instead). -/
theorem c1_poem_heading_and_tab_bounds (mdr ri : String → String)
    (lineF : String → Except String String)
    (line header body : String) (rest : List String) :
    (countLeading '#' line = 6 →
      Renderers.renderPoemLines mdr ri lineF false header body (line :: rest)
        = Renderers.renderPoemLines mdr ri lineF false
            (header ++ "<h6>" ++ ri (strDrop line 6) ++ "</h6>\n\n") body rest)
    ∧ (6 < countLeading '#' line →
      Renderers.renderPoemLines mdr ri lineF false header body (line :: rest)
        = .error ("Too many hash marks (" ++ toString (countLeading '#' line)
            ++ ")) in line " ++ line))
    ∧ (pyIsBlank line = false → 0 < countLeading '\t' line →
        countLeading '\t' line ≤ 4 →
      Renderers.poem_line_to_ebook_html ri line
        = .ok ("<div class=\"poem tab" ++ toString (countLeading '\t' line) ++ "\">"
            ++ ri (strDrop line (countLeading '\t' line)) ++ "</div>\n"))
    ∧ (pyIsBlank line = false → 5 ≤ countLeading '\t' line →
      Renderers.poem_line_to_ebook_html ri line
        = .error ("Too many tabs " ++ toString (countLeading '\t' line)
            ++ " in line " ++ line)) := by
  refine ⟨?_, ?_, ?_, ?_⟩
  · intro h6
    have hnb : pyIsBlank line = false :=
      not_blank_of_countLeading_pos '#' line (by decide) (by omega)
    simp only [Renderers.renderPoemLines, hnb, Bool.false_eq_true, if_false, h6]
    norm_num
    rw [heading6_append]
  · intro h7
    have hnb : pyIsBlank line = false :=
      not_blank_of_countLeading_pos '#' line (by decide) (by omega)
    have hne : ¬ (countLeading '#' line = 0) := by omega
    simp only [Renderers.renderPoemLines, hnb, Bool.false_eq_true, if_false,
      hne, if_true, h7]
  · intro hnb h1 h4
    have hne : ¬ (countLeading '\t' line = 0) := by omega
    have hle : ¬ (4 < countLeading '\t' line) := by omega
    simp only [Renderers.poem_line_to_ebook_html, hnb, Bool.false_eq_true,
      if_false, hne, hle, if_true]
  · intro hnb h5
    have hne : ¬ (countLeading '\t' line = 0) := by omega
    have hlt : 4 < countLeading '\t' line := by omega
    simp only [Renderers.poem_line_to_ebook_html, hnb, Bool.false_eq_true,
      if_false, hne, hlt, if_true]

/-- C1 witness: the four amended clauses applied at concrete poem lines
drawn from the repository's tests. -/
theorem c1_poem_heading_and_tab_bounds_witness :
    (Renderers.renderPoemLines (fun s => s) (fun s => s) (fun _ => .ok "") false "" ""
        ["######Title"]
      = Renderers.renderPoemLines (fun s => s) (fun s => s) (fun _ => .ok "") false
          "<h6>Title</h6>\n\n" "" [])
    ∧ (Renderers.renderPoemLines (fun s => s) (fun s => s) (fun _ => .ok "") false "" ""
        ["#######Nope"]
      = .error "Too many hash marks (7)) in line #######Nope")
    ∧ (Renderers.poem_line_to_ebook_html (fun s => s) "\tIndent one"
      = .ok "<div class=\"poem tab1\">Indent one</div>\n")
    ∧ (Renderers.poem_line_to_ebook_html (fun s => s) "\t\t\t\t\tNope"
      = .error "Too many tabs 5 in line \t\t\t\t\tNope") := by
  refine ⟨?_, ?_, ?_, ?_⟩
  · exact (c1_poem_heading_and_tab_bounds (fun s => s) (fun s => s) (fun _ => .ok "")
      "######Title" "" "" []).1 (by decide)
  · exact (c1_poem_heading_and_tab_bounds (fun s => s) (fun s => s) (fun _ => .ok "")
      "#######Nope" "" "" []).2.1 (by decide)
  · exact (c1_poem_heading_and_tab_bounds (fun s => s) (fun s => s) (fun _ => .ok "")
      "\tIndent one" "" "" []).2.2.1 (by decide) (by decide) (by decide)
  · exact (c1_poem_heading_and_tab_bounds (fun s => s) (fun s => s) (fun _ => .ok "")
      "\t\t\t\t\tNope" "" "" []).2.2.2 (by decide) (by decide)



/-- Helper: `dropWhile` never lengthens a list. -/
theorem dropWhile_length_le {α : Type} (p : α → Bool) (l : List α) :
    (l.dropWhile p).length ≤ l.length := by
  induction l with
  | nil => simp [List.dropWhile]
  | cons a t ih =>
    by_cases h : p a
    · rw [List.dropWhile_cons_of_pos h]
      exact Nat.le_succ_of_le ih
    · rw [List.dropWhile_cons_of_neg h]

/-- Helper: a successful `hrMatchTail` returns a list no longer than its
input. -/
theorem hrMatchTail_length (r2 rem : List Char)
    (h : Renderers.hrMatchTail r2 = some rem) : rem.length ≤ r2.length := by
  unfold Renderers.hrMatchTail at h
  split at h
  · next rem2 heq =>
    have hd := congrArg List.length heq
    have hle := dropWhile_length_le (fun c : Char => c == '\n') r2
    rw [hd] at hle
    simp at h
    subst h
    simp at hle
    omega
  · exact absurd h (by simp)

/-- Helper: a successful `hrMatch` consumes at least the rule tag. -/
theorem hrMatch_length (l rem : List Char)
    (h : Renderers.hrMatch l = some rem) : rem.length < l.length := by
  unfold Renderers.hrMatch at h
  split at h
  · next r2 =>
    have := hrMatchTail_length r2 rem h
    simp
    omega
  · next r2 =>
    have := hrMatchTail_length r2 rem h
    simp
    omega
  · exact absurd h (by simp)

/-- Helper: the scene-break scanner ignores its fuel argument as long as
the fuel is at least the input length. -/
theorem subHrNoindentGo_congr :
    ∀ (f1 : Nat) (l : List Char) (f2 : Nat), l.length ≤ f1 → l.length ≤ f2 →
      Renderers.subHrNoindentGo f1 l = Renderers.subHrNoindentGo f2 l := by
  intro f1
  induction f1 with
  | zero =>
    intro l f2 h1 _
    have hl : l = [] := List.length_eq_zero.mp (Nat.le_zero.mp h1)
    subst hl
    cases f2 <;> simp [Renderers.subHrNoindentGo]
  | succ f ih =>
    intro l f2 h1 h2
    cases l with
    | nil => cases f2 <;> simp [Renderers.subHrNoindentGo]
    | cons c rest =>
      cases f2 with
      | zero => simp at h2
      | succ f2 =>
        simp only [List.length_cons] at h1 h2
        simp only [Renderers.subHrNoindentGo]
        cases hm : Renderers.hrMatch (c :: rest) with
        | none =>
          show c :: Renderers.subHrNoindentGo f rest
              = c :: Renderers.subHrNoindentGo f2 rest
          rw [ih rest f2 (by omega) (by omega)]
        | some rem =>
          have hlt := hrMatch_length _ _ hm
          simp only [List.length_cons] at hlt
          show "<p class=\"noindent\">".data ++ Renderers.subHrNoindentGo f rem
              = "<p class=\"noindent\">".data ++ Renderers.subHrNoindentGo f2 rem
          rw [ih rem f2 (by omega) (by omega)]

/-- Helper: `\n*` consumes exactly a maximal newline run when the next
character is not a newline. -/
theorem dropWhile_newline_replicate (k : Nat) (c : Char) (l : List Char)
    (hc : (c == '\n') = false) :
    (List.replicate k '\n' ++ c :: l).dropWhile (fun d => d == '\n') = c :: l := by
  induction k with
  | zero => simp [List.dropWhile_cons_of_neg, hc]
  | succ k ih =>
    rw [List.replicate_succ, List.cons_append, List.dropWhile_cons_of_pos (by simp)]
    exact ih


/-- Single-step unfolding of the scene-break scanner on a cons cell with
successor fuel. -/
theorem subHrNoindentGo_cons_eq (fuel : Nat) (c : Char) (rest : List Char) :
    Renderers.subHrNoindentGo (fuel + 1) (c :: rest)
      = match Renderers.hrMatch (c :: rest) with
        | some rem => "<p class=\"noindent\">".data ++ Renderers.subHrNoindentGo fuel rem
        | none => c :: Renderers.subHrNoindentGo fuel rest := rfl

/-- C2 counterexample: the scene-break substitution regex matches a rule
self-closed with a trailing space but not one without it — `<hr/>`
followed by a paragraph-open tag is left unchanged. -/
theorem c2_hr_without_space_counterexample :
    Renderers.subHrNoindent "<hr/>\n<p>Para 2.</p>\n" = "<hr/>\n<p>Para 2.</p>\n"
    ∧ Renderers.subHrNoindent "<hr />\n<p>Para 2.</p>\n"
      = "<p class=\"noindent\">Para 2.</p>\n" :=
  ⟨rfl, rfl⟩

/-- C2 (amended): every horizontal-rule element written `<hr>` or
`<hr />` (self-closed with a trailing space before `/>`) immediately
followed, possibly across newlines, by a paragraph-open tag is replaced
by a single paragraph-open tag with class "noindent"; a self-closed rule
without the space (`<hr/>`) is not matched.  The claim's concrete example
renders as stated, given the engine's documented block render of the
input. -/
theorem c2_scene_break_substitution (mdr : String → String) (k : Nat) (s : String)
    (hmd : mdr "Para 1.\n\n----\n\nPara 2."
      = "<p>Para 1.</p>\n<hr />\n<p>Para 2.</p>\n") :
    Renderers.render_story_for_ebook mdr "Para 1.\n\n----\n\nPara 2."
      = "<p>Para 1.</p>\n<p class=\"noindent\">Para 2.</p>\n"
    ∧ Renderers.subHrNoindent ("<hr />" ++ nlRun k ++ "<p>" ++ s)
      = "<p class=\"noindent\">" ++ Renderers.subHrNoindent s
    ∧ Renderers.subHrNoindent ("<hr>" ++ nlRun k ++ "<p>" ++ s)
      = "<p class=\"noindent\">" ++ Renderers.subHrNoindent s := by
  refine ⟨?_, ?_, ?_⟩
  · have e : Renderers.render_story_for_ebook mdr "Para 1.\n\n----\n\nPara 2."
        = Renderers.subHrNoindent (mdr "Para 1.\n\n----\n\nPara 2.") := rfl
    rw [e, hmd]
    rfl
  · have hdata : ("<hr />" ++ nlRun k ++ "<p>" ++ s).data
        = '<' :: 'h' :: 'r' :: ' ' :: '/' :: '>'
          :: (List.replicate k '\n' ++ '<' :: 'p' :: '>' :: s.data) := by
      simp only [data_append]
      simp [nlRun, List.append_assoc]
    have htail : Renderers.hrMatchTail (List.replicate k '\n' ++ '<' :: 'p' :: '>' :: s.data)
        = some s.data := by
      unfold Renderers.hrMatchTail
      rw [dropWhile_newline_replicate k '<' ('p' :: '>' :: s.data) (by decide)]
      rfl
    have hmatch : Renderers.hrMatch ('<' :: 'h' :: 'r' :: ' ' :: '/' :: '>'
          :: (List.replicate k '\n' ++ '<' :: 'p' :: '>' :: s.data)) = some s.data := by
      unfold Renderers.hrMatch
      exact htail
    have hlen : ('<' :: 'h' :: 'r' :: ' ' :: '/' :: '>'
          :: (List.replicate k '\n' ++ '<' :: 'p' :: '>' :: s.data)).length
        = (k + s.data.length + 8) + 1 := by
      simp [List.length_append, List.length_replicate]
      omega
    have hlist : Renderers.subHrNoindentGo ("<hr />" ++ nlRun k ++ "<p>" ++ s).data.length
          ("<hr />" ++ nlRun k ++ "<p>" ++ s).data
        = "<p class=\"noindent\">".data
          ++ Renderers.subHrNoindentGo s.data.length s.data := by
      rw [hdata, hlen, subHrNoindentGo_cons_eq, hmatch]
      show "<p class=\"noindent\">".data
            ++ Renderers.subHrNoindentGo (k + s.data.length + 8) s.data = _
      rw [subHrNoindentGo_congr (k + s.data.length + 8) s.data s.data.length
        (by omega) (Nat.le_refl _)]
    exact String.ext hlist
  · have hdata : ("<hr>" ++ nlRun k ++ "<p>" ++ s).data
        = '<' :: 'h' :: 'r' :: '>'
          :: (List.replicate k '\n' ++ '<' :: 'p' :: '>' :: s.data) := by
      simp only [data_append]
      simp [nlRun, List.append_assoc]
    have htail : Renderers.hrMatchTail (List.replicate k '\n' ++ '<' :: 'p' :: '>' :: s.data)
        = some s.data := by
      unfold Renderers.hrMatchTail
      rw [dropWhile_newline_replicate k '<' ('p' :: '>' :: s.data) (by decide)]
      rfl
    have hmatch : Renderers.hrMatch ('<' :: 'h' :: 'r' :: '>'
          :: (List.replicate k '\n' ++ '<' :: 'p' :: '>' :: s.data)) = some s.data := by
      unfold Renderers.hrMatch
      exact htail
    have hlen : ('<' :: 'h' :: 'r' :: '>'
          :: (List.replicate k '\n' ++ '<' :: 'p' :: '>' :: s.data)).length
        = (k + s.data.length + 6) + 1 := by
      simp [List.length_append, List.length_replicate]
      omega
    have hlist : Renderers.subHrNoindentGo ("<hr>" ++ nlRun k ++ "<p>" ++ s).data.length
          ("<hr>" ++ nlRun k ++ "<p>" ++ s).data
        = "<p class=\"noindent\">".data
          ++ Renderers.subHrNoindentGo s.data.length s.data := by
      rw [hdata, hlen, subHrNoindentGo_cons_eq, hmatch]
      show "<p class=\"noindent\">".data
            ++ Renderers.subHrNoindentGo (k + s.data.length + 6) s.data = _
      rw [subHrNoindentGo_congr (k + s.data.length + 6) s.data s.data.length
        (by omega) (Nat.le_refl _)]
    exact String.ext hlist

/-- C2 witness: the substitution applied across two newlines with a
concrete remainder, and the end-to-end story example with the concrete
engine output. -/
theorem c2_scene_break_substitution_witness :
    Renderers.render_story_for_ebook
        (fun _ => "<p>Para 1.</p>\n<hr />\n<p>Para 2.</p>\n")
        "Para 1.\n\n----\n\nPara 2."
      = "<p>Para 1.</p>\n<p class=\"noindent\">Para 2.</p>\n"
    ∧ Renderers.subHrNoindent ("<hr />" ++ nlRun 2 ++ "<p>" ++ "x</p>")
      = "<p class=\"noindent\">" ++ Renderers.subHrNoindent "x</p>"
    ∧ Renderers.subHrNoindent ("<hr>" ++ nlRun 2 ++ "<p>" ++ "x</p>")
      = "<p class=\"noindent\">" ++ Renderers.subHrNoindent "x</p>" := by
  have h := c2_scene_break_substitution
    (fun _ => "<p>Para 1.</p>\n<hr />\n<p>Para 2.</p>\n") 2 "x</p>" rfl
  exact h


/-- Helper: the poem translation table never emits an unsafe character. -/
theorem poemTransChar_safe (c d : Char)
    (hd : d ∈ (Renderers.poemTransChar c).data) : jsonUnsafe d = false := by
  unfold Renderers.poemTransChar at hd
  by_cases h1 : c == '<'
  · simp only [h1, if_true] at hd
    fin_cases hd <;> rfl
  · simp only [h1, Bool.false_eq_true, if_false] at hd
    by_cases h2 : c == '>'
    · simp only [h2, if_true] at hd
      fin_cases hd <;> rfl
    · simp only [h2, Bool.false_eq_true, if_false] at hd
      by_cases h3 : c == '"'
      · simp only [h3, if_true] at hd
        fin_cases hd <;> rfl
      · simp only [h3, Bool.false_eq_true, if_false] at hd
        have hdc : d = c := by simpa [String.singleton] using hd
        subst hdc
        simp only [jsonUnsafe]
        simp at h1 h2 h3
        simp [h1, h2, h3]

/-- Helper: every character of a translated string is JSON-safe. -/
theorem poemTranslate_safe (s : String) :
    ∀ d ∈ (Renderers.poemTranslate s).data, jsonUnsafe d = false := by
  unfold Renderers.poemTranslate
  show ∀ d ∈ s.data.foldr (fun c acc => (Renderers.poemTransChar c).data ++ acc) [], _
  induction s.data with
  | nil => intro d hd; simp at hd
  | cons a l ih =>
    intro d hd
    simp only [List.foldr_cons] at hd
    rcases List.mem_append.mp hd with h1 | h2
    · exact poemTransChar_safe a d h1
    · exact ih d h2

/-- Helper: every character of a website-rendered verse line is
JSON-safe, for any inline renderer. -/
theorem website_line_safe (ri : String → String) (line : String) :
    ∀ d ∈ (Renderers.poem_line_to_website_html ri line).data, jsonUnsafe d = false := by
  unfold Renderers.poem_line_to_website_html
  exact poemTranslate_safe _

/-- Helper invariant: when no line of the poem block-renders to a string
starting with `<hr />`, the body accumulated by the website poem loop
stays JSON-safe. -/
theorem renderPoemLines_website_body_safe (mdr ri : String → String) :
    ∀ (lines : List String) (inC : Bool) (header body : String),
      (∀ d ∈ body.data, jsonUnsafe d = false) →
      (∀ line ∈ lines, pyStartsWith (mdr line) "<hr />" = false) →
      ∀ (h b : String),
        Renderers.renderPoemLines mdr ri
            (fun l => .ok (Renderers.poem_line_to_website_html ri l)) inC header body lines
          = .ok (h, b) →
        ∀ d ∈ b.data, jsonUnsafe d = false := by
  intro lines
  induction lines with
  | nil =>
    intro inC header body hbody _ h b hres
    cases inC <;>
    · simp only [Renderers.renderPoemLines, Except.ok.injEq, Prod.mk.injEq] at hres
      obtain ⟨_, h2⟩ := hres
      subst h2
      exact hbody
  | cons line rest ih =>
    intro inC header body hbody hlines h b hres
    have hline : pyStartsWith (mdr line) "<hr />" = false :=
      hlines line (by simp)
    have hrest : ∀ l ∈ rest, pyStartsWith (mdr l) "<hr />" = false :=
      fun l hl => hlines l (by simp [hl])
    have hbody2 : ∀ d ∈ (body ++ Renderers.poem_line_to_website_html ri line).data,
        jsonUnsafe d = false := by
      intro d hd
      rw [data_append] at hd
      rcases List.mem_append.mp hd with h1 | h2
      · exact hbody d h1
      · exact website_line_safe ri line d h2
    cases inC with
    | true =>
      simp only [Renderers.renderPoemLines, Renderers.poemBodyStep, hline,
        Bool.false_eq_true, if_false] at hres
      exact ih true header _ hbody2 hrest h b hres
    | false =>
      by_cases hblank : pyIsBlank line
      · simp only [Renderers.renderPoemLines, hblank, if_true] at hres
        exact ih false header body hbody hrest h b hres
      · have hblank2 : pyIsBlank line = false := by simpa using hblank
        by_cases hcnt : countLeading '#' line = 0
        · simp only [Renderers.renderPoemLines, hblank2, Bool.false_eq_true, if_false,
            hcnt, if_true, Renderers.poemBodyStep, hline] at hres
          exact ih true header _ hbody2 hrest h b hres
        · by_cases h6 : 6 < countLeading '#' line
          · simp only [Renderers.renderPoemLines, hblank2, Bool.false_eq_true, if_false,
              hcnt, h6, if_true] at hres
            exact Except.noConfusion hres
          · simp only [Renderers.renderPoemLines, hblank2, Bool.false_eq_true, if_false,
              hcnt, h6] at hres
            exact ih false _ body hbody hrest h b hres

/-- C3 counterexample: a poem whose body contains a horizontal-rule line
embeds the raw block render `<hr />` (raw angle brackets included) inside
the lazyblock JSON "poem" value.  The engine stubs record the block
renders documented by the repository's own tests (`---` block-renders to
`<hr />\n`). -/
theorem c3_hr_line_counterexample :
    Renderers.render_poem (fun s => if s = "---" then "<hr />\n" else "<p>" ++ s ++ "</p>\n")
        (fun s => s)
        (fun l => .ok (Renderers.poem_line_to_website_html (fun s => s) l))
        "line one\n---"
      = .ok ("", "line one\\u003cbr\\u003e<hr />\n")
    ∧ Renderers.render_poem_for_website
        (fun s => if s = "---" then "<hr />\n" else "<p>" ++ s ++ "</p>\n")
        (fun s => s) "line one\n---"
      = .ok "<!-- wp:lazyblock/poem \x7b\"poem\":\"line one\\u003cbr\\u003e<hr />\n\"\x7d /-->"
    ∧ '<' ∈ ("line one\\u003cbr\\u003e<hr />\n" : String).data :=
  ⟨rfl, rfl, by decide⟩

/-- C3 (amended): for a poem none of whose lines block-renders to a
horizontal rule, every character of the body string embedded as the JSON
"poem" value inside the lazyblock comment is JSON-safe — each verse line
has tabs replaced by literal arrow markers, a line-break suffix appended,
and `<`, `>`, `"` transcoded to the escaped sequences; a body line
classified as a horizontal rule, however, is appended as the raw block
render. -/
theorem c3_website_poem_body_escaped (mdr ri : String → String) (text h b : String)
    (hnohr : ∀ line ∈ pySplitlines text, pyStartsWith (mdr line) "<hr />" = false)
    (hres : Renderers.render_poem mdr ri
        (fun l => .ok (Renderers.poem_line_to_website_html ri l)) text = .ok (h, b)) :
    (∀ d ∈ b.data, jsonUnsafe d = false)
    ∧ Renderers.render_poem_for_website mdr ri text
      = .ok ("<!-- wp:lazyblock/poem \x7b\"poem\":\"" ++ b ++ "\"\x7d /-->") := by
  constructor
  · exact renderPoemLines_website_body_safe mdr ri (pySplitlines text) false "" ""
      (by intro d hd; simp at hd) hnohr h b hres
  · unfold Renderers.render_poem_for_website
    rw [hres]
    rfl

/-- C3 witness: the escaping theorem applied to the concrete poem from
the repository's website-poem test, with identity-style engine stubs. -/
theorem c3_website_poem_body_escaped_witness :
    (∀ d ∈ ("To \\u003cbracket\\u003e a \\u0022quote\\u0022\\u003cbr\\u003e" : String).data,
      jsonUnsafe d = false)
    ∧ Renderers.render_poem_for_website (fun s => "<p>" ++ s ++ "</p>\n") (fun s => s)
        "To <bracket> a \"quote\""
      = .ok ("<!-- wp:lazyblock/poem \x7b\"poem\":\"To \\u003cbracket\\u003e a \\u0022quote\\u0022\\u003cbr\\u003e\"\x7d /-->") := by
  have h := c3_website_poem_body_escaped (fun s => "<p>" ++ s ++ "</p>\n") (fun s => s)
    "To <bracket> a \"quote\"" ""
    "To \\u003cbracket\\u003e a \\u0022quote\\u0022\\u003cbr\\u003e"
    (by decide) rfl
  exact h


/-- Helper: the publication search finds the match at the first position
whose suffix matches, returning everything before it and the match
remainder untouched. -/
theorem fpSearch_append :
    ∀ (pre rest grp after : List Char),
      (∀ i, i < pre.length → Renderers.fpMatch ((pre ++ rest).drop i) = none) →
      Renderers.fpMatch rest = some (grp, after) →
      Renderers.fpSearch (pre ++ rest) = some (pre, grp, after) := by
  intro pre
  induction pre with
  | nil =>
    intro rest grp after _ hm
    cases rest with
    | nil =>
      rw [show Renderers.fpMatch [] = none from rfl] at hm
      exact Option.noConfusion hm
    | cons c r =>
      show Renderers.fpSearch (c :: r) = some ([], grp, after)
      unfold Renderers.fpSearch
      rw [hm]
  | cons p pre2 ih =>
    intro rest grp after hpre hm
    have h0 : Renderers.fpMatch (p :: (pre2 ++ rest)) = none := by
      have h := hpre 0 (by simp)
      simpa using h
    have hpre2 : ∀ i, i < pre2.length → Renderers.fpMatch ((pre2 ++ rest).drop i) = none := by
      intro i hi
      have h := hpre (i + 1) (by simp [hi])
      simpa using h
    show Renderers.fpSearch (p :: (pre2 ++ rest)) = some (p :: pre2, grp, after)
    unfold Renderers.fpSearch
    rw [h0, ih rest grp after hpre2 hm]

/-- Helper: the copyright search finds the match at the first position
whose suffix matches, returning everything before it and the match
remainder untouched. -/
theorem crSearch_append :
    ∀ (pre rest year after : List Char),
      (∀ i, i < pre.length → Renderers.crMatch ((pre ++ rest).drop i) = none) →
      Renderers.crMatch rest = some (year, after) →
      Renderers.crSearch (pre ++ rest) = some (pre, year, after) := by
  intro pre
  induction pre with
  | nil =>
    intro rest year after _ hm
    cases rest with
    | nil =>
      rw [show Renderers.crMatch [] = none from rfl] at hm
      exact Option.noConfusion hm
    | cons c r =>
      show Renderers.crSearch (c :: r) = some ([], year, after)
      unfold Renderers.crSearch
      rw [hm]
  | cons p pre2 ih =>
    intro rest year after hpre hm
    have h0 : Renderers.crMatch (p :: (pre2 ++ rest)) = none := by
      have h := hpre 0 (by simp)
      simpa using h
    have hpre2 : ∀ i, i < pre2.length → Renderers.crMatch ((pre2 ++ rest).drop i) = none := by
      intro i hi
      have h := hpre (i + 1) (by simp [hi])
      simpa using h
    show Renderers.crSearch (p :: (pre2 ++ rest)) = some (p :: pre2, year, after)
    unfold Renderers.crSearch
    rw [h0, ih rest year after hpre2 hm]

/-- C4: for every story file, the website renderer removes the first
match of "First published in ..." and the first match of
"Copyright (c|©) <year> ..." each exactly once: the searches fire at the
first position whose suffix matches, leaving everything before the match
unscanned and everything after it — later matches included — untouched;
the renderer's output body is the text with exactly those two spans
removed, with the publication remainder inline-rendered and the numeric
year captured as optional outputs.  Two-occurrence inputs keep their
second match, and the specification's concrete vectors evaluate as
stated given the engine's documented renders. -/
theorem c4_website_story_metadata (mdr ri : String → String) (text : String)
    (pre rest grp after pre2 rest2 year after2 : List Char) :
    ((∀ i, i < pre.length → Renderers.fpMatch ((pre ++ rest).drop i) = none) →
      Renderers.fpMatch rest = some (grp, after) →
      Renderers.fpSearch (pre ++ rest) = some (pre, grp, after))
    ∧ ((∀ i, i < pre2.length → Renderers.crMatch ((pre2 ++ rest2).drop i) = none) →
      Renderers.crMatch rest2 = some (year, after2) →
      Renderers.crSearch (pre2 ++ rest2) = some (pre2, year, after2))
    ∧ (Renderers.fpSearch (Renderers.remove_header_markdown text).data
        = some (pre, grp, after) →
      Renderers.crSearch (pre ++ after) = some (pre2, year, after2) →
      Renderers.render_story_for_website mdr ri text
        = (mdr ⟨pre2 ++ after2⟩, some (ri (pyStrip ⟨grp⟩)), some (⟨year⟩ : String)))
    ∧ Renderers.render_story_for_website mdr ri
        "First published in A\nFirst published in B\n"
      = (mdr "First published in B\n", some (ri "A"), none)
    ∧ Renderers.render_story_for_website mdr ri
        "Copyright (c) 2017 x\nCopyright (c) 2018 y\n"
      = (mdr "Copyright (c) 2018 y\n", none, some "2017")
    ∧ (mdr "" = "" →
      ri "*Yep That's My Baby* magazine" = "<em>Yep That's My Baby</em> magazine" →
      Renderers.render_story_for_website mdr ri "Copyright (c) 2017, N. E. Body\n"
        = ("", none, some "2017")
      ∧ Renderers.render_story_for_website mdr ri
          "First published in *Yep That's My Baby* magazine\n"
        = ("", some "<em>Yep That's My Baby</em> magazine", none)) := by
  refine ⟨?_, ?_, ?_, ?_, ?_, ?_⟩
  · intro h1 h2
    exact fpSearch_append pre rest grp after h1 h2
  · intro h1 h2
    exact crSearch_append pre2 rest2 year after2 h1 h2
  · intro hfp hcr
    simp only [Renderers.render_story_for_website]
    rw [hfp]
    dsimp only
    rw [hcr]
  · rfl
  · rfl
  · intro hmd hri
    constructor
    · have e : Renderers.render_story_for_website mdr ri "Copyright (c) 2017, N. E. Body\n"
          = (mdr "", none, some "2017") := rfl
      rw [e, hmd]
    · have e : Renderers.render_story_for_website mdr ri
          "First published in *Yep That's My Baby* magazine\n"
          = (mdr "", some (ri "*Yep That's My Baby* magazine"), none) := rfl
      rw [e, hmd, hri]

/-- C4 witness: the leftmost-search clauses at concrete prefixes, the
exactly-once clause on a three-line story carrying both metadata lines,
the two-occurrence inputs, and the specification's vectors with concrete
engine stubs. -/
theorem c4_website_story_metadata_witness :
    Renderers.fpSearch ("intro\n".data ++ "First published in Mag\n".data)
      = some ("intro\n".data, "Mag".data, [])
    ∧ Renderers.crSearch ("story\n".data ++ "Copyright (c) 2017, N. E. Body\n".data)
      = some ("story\n".data, "2017".data, [])
    ∧ Renderers.render_story_for_website (fun s => s) (fun s => s)
        "A\nFirst published in M\nCopyright (c) 2017, X\n"
      = ("A\n", some "M", some "2017")
    ∧ Renderers.render_story_for_website (fun s => s) (fun s => s)
        "First published in A\nFirst published in B\n"
      = ("First published in B\n", some "A", none)
    ∧ Renderers.render_story_for_website (fun s => s) (fun s => s)
        "Copyright (c) 2017 x\nCopyright (c) 2018 y\n"
      = ("Copyright (c) 2018 y\n", none, some "2017")
    ∧ Renderers.render_story_for_website (fun _ => "")
        (fun _ => "<em>Yep That's My Baby</em> magazine")
        "Copyright (c) 2017, N. E. Body\n"
      = ("", none, some "2017")
    ∧ Renderers.render_story_for_website (fun _ => "")
        (fun _ => "<em>Yep That's My Baby</em> magazine")
        "First published in *Yep That's My Baby* magazine\n"
      = ("", some "<em>Yep That's My Baby</em> magazine", none) := by
  have t1 := (c4_website_story_metadata (fun s => s) (fun s => s) ""
    "intro\n".data "First published in Mag\n".data "Mag".data [] [] [] [] []).1
    (by decide) (by decide)
  have t2 := (c4_website_story_metadata (fun s => s) (fun s => s) "" [] [] [] []
    "story\n".data "Copyright (c) 2017, N. E. Body\n".data "2017".data []).2.1
    (by decide) (by decide)
  have t3 := (c4_website_story_metadata (fun s => s) (fun s => s)
    "A\nFirst published in M\nCopyright (c) 2017, X\n"
    "A\n".data "First published in M\nCopyright (c) 2017, X\n".data "M".data
    "Copyright (c) 2017, X\n".data "A\n".data [] "2017".data []).2.2.1
    (by decide) (by decide)
  have t4 := (c4_website_story_metadata (fun s => s) (fun s => s) "" [] [] [] [] [] []
    [] []).2.2.2.1
  have t5 := (c4_website_story_metadata (fun s => s) (fun s => s) "" [] [] [] [] [] []
    [] []).2.2.2.2.1
  have t6 := (c4_website_story_metadata (fun _ => "")
    (fun _ => "<em>Yep That's My Baby</em> magazine") "" [] [] [] [] [] [] []
    []).2.2.2.2.2 rfl rfl
  exact ⟨t1, t2, t3, t4, t5, t6.1, t6.2⟩

/-- Helper: when every file extracts both values, the loop returns the
accumulated parallel lists (or the pending error if one was carried in). -/
theorem gtaLoop_all_good (files : List (String × List IssueInfo.Token))
    (hall : ∀ f ∈ files, (IssueInfo.fileErrs f.2).isEmpty) :
    ∀ t a e, IssueInfo.gtaLoop files t a e
      = if e.isEmpty
        then .ok (t ++ files.map (fun f => (IssueInfo.extract f.2).1.getD ""),
                  a ++ files.map (fun f => (IssueInfo.extract f.2).2.getD ""))
        else .error ("Issues finding titles/authors.\n  "
          ++ String.intercalate "\n  " e) := by
  induction files with
  | nil =>
    intro t a e
    simp [IssueInfo.gtaLoop]
  | cons f rest ih =>
    intro t a e
    have hf : (IssueInfo.fileErrs f.2).isEmpty := hall f (by simp)
    have hrest : ∀ g ∈ rest, (IssueInfo.fileErrs g.2).isEmpty :=
      fun g hg => hall g (by simp [hg])
    rcases hx : IssueInfo.extract f.2 with ⟨t0, a0⟩
    simp only [IssueInfo.gtaLoop, hx, hf, if_true]
    rw [ih hrest]
    by_cases he : e.isEmpty <;>
      simp [he, hx, List.append_assoc]

/-- Helper: as soon as any error entry exists (pending or contributed by
some file), the loop fails with the combined message listing every
failing file. -/
theorem gtaLoop_has_error (files : List (String × List IssueInfo.Token)) :
    ∀ t a e, e ++ files.filterMap fileErrEntry ≠ [] →
      IssueInfo.gtaLoop files t a e
        = .error ("Issues finding titles/authors.\n  "
          ++ String.intercalate "\n  " (e ++ files.filterMap fileErrEntry)) := by
  induction files with
  | nil =>
    intro t a e hne
    simp only [List.filterMap_nil, List.append_nil] at hne ⊢
    cases e with
    | nil => exact absurd rfl hne
    | cons x xs => simp [IssueInfo.gtaLoop]
  | cons f rest ih =>
    intro t a e hne
    rcases hx : IssueInfo.extract f.2 with ⟨t0, a0⟩
    by_cases hf : (IssueInfo.fileErrs f.2).isEmpty
    · have hent : fileErrEntry f = none := by simp [fileErrEntry, hf]
      simp only [List.filterMap_cons, hent] at hne ⊢
      simp only [IssueInfo.gtaLoop, hx, hf, if_true]
      exact ih (t ++ [t0.getD ""]) (a ++ [a0.getD ""]) e hne
    · have hent : fileErrEntry f
          = some (f.1 ++ ": " ++ String.intercalate " " (IssueInfo.fileErrs f.2)) := by
        simp [fileErrEntry, hf]
      simp only [List.filterMap_cons, hent] at hne ⊢
      simp only [IssueInfo.gtaLoop, hx, hf, Bool.false_eq_true, if_false]
      rw [ih t a (e ++ [f.1 ++ ": " ++ String.intercalate " " (IssueInfo.fileErrs f.2)])
        (by simp)]
      simp [List.append_assoc]

/-- C8: `get_titles_and_authors` scans every file before failing: when no
file fails it returns the parallel title and author lists in input order;
when some file fails it raises, only after the whole scan, a single
combined error whose entries are exactly the failing files' messages in
input order — files with both headings contribute no entry. -/
theorem c8_batch_title_author_extraction (files : List (String × List IssueInfo.Token)) :
    ((∀ f ∈ files, (IssueInfo.fileErrs f.2).isEmpty) →
      IssueInfo.get_titles_and_authors files
        = .ok (files.map (fun f => (IssueInfo.extract f.2).1.getD ""),
               files.map (fun f => (IssueInfo.extract f.2).2.getD "")))
    ∧ (files.filterMap fileErrEntry ≠ [] →
      IssueInfo.get_titles_and_authors files
        = .error ("Issues finding titles/authors.\n  "
          ++ String.intercalate "\n  " (files.filterMap fileErrEntry))) := by
  constructor
  · intro hall
    unfold IssueInfo.get_titles_and_authors
    rw [gtaLoop_all_good files hall [] [] []]
    simp
  · intro hne
    unfold IssueInfo.get_titles_and_authors
    rw [gtaLoop_has_error files [] [] [] (by simpa using hne)]
    simp

/-- C8 witness: the success clause on a well-formed file, and the failure
clause on the specification's three-file example — one file lacking a
title, one well-formed, one lacking an author — whose combined error
names exactly the two failing files. -/
theorem c8_batch_title_author_extraction_witness :
    IssueInfo.get_titles_and_authors
        [("b.md", [⟨"#", ""⟩, ⟨"", "T"⟩, ⟨"#", ""⟩, ⟨"##", ""⟩, ⟨"", "B"⟩, ⟨"##", ""⟩])]
      = .ok (["T"], ["B"])
    ∧ IssueInfo.get_titles_and_authors
        [("a.md", [⟨"##", ""⟩, ⟨"", "A. Author"⟩, ⟨"##", ""⟩]),
         ("b.md", [⟨"#", ""⟩, ⟨"", "T"⟩, ⟨"#", ""⟩, ⟨"##", ""⟩, ⟨"", "B"⟩, ⟨"##", ""⟩]),
         ("c.md", [⟨"#", ""⟩, ⟨"", "T2"⟩, ⟨"#", ""⟩])]
      = .error ("Issues finding titles/authors.\n  a.md: No title found. Are you missing a # Markdown heading?\n  c.md: No author found. Are you missing a ## Markdown heading?") := by
  constructor
  · have h := (c8_batch_title_author_extraction
      [("b.md", [⟨"#", ""⟩, ⟨"", "T"⟩, ⟨"#", ""⟩, ⟨"##", ""⟩, ⟨"", "B"⟩, ⟨"##", ""⟩])]).1
      (by decide)
    rw [h]
    rfl
  · have h := (c8_batch_title_author_extraction
      [("a.md", [⟨"##", ""⟩, ⟨"", "A. Author"⟩, ⟨"##", ""⟩]),
       ("b.md", [⟨"#", ""⟩, ⟨"", "T"⟩, ⟨"#", ""⟩, ⟨"##", ""⟩, ⟨"", "B"⟩, ⟨"##", ""⟩]),
       ("c.md", [⟨"#", ""⟩, ⟨"", "T2"⟩, ⟨"#", ""⟩])]).2 (by decide)
    rw [h]
    rfl


/-- Helper: the duplicated scene-break scanners of the two modules agree. -/
theorem subHrNoindentGo_eq :
    ∀ (fuel : Nat) (l : List Char),
      MdRenderers.subHrNoindentGo fuel l = Renderers.subHrNoindentGo fuel l := by
  intro fuel
  induction fuel with
  | zero => intro l; rfl
  | succ f ih =>
    intro l
    cases l with
    | nil => rfl
    | cons c rest =>
      simp only [MdRenderers.subHrNoindentGo, Renderers.subHrNoindentGo,
        show @MdRenderers.hrMatch = @Renderers.hrMatch from rfl]
      cases hm : Renderers.hrMatch (c :: rest) with
      | none =>
        show c :: MdRenderers.subHrNoindentGo f rest
            = c :: Renderers.subHrNoindentGo f rest
        rw [ih rest]
      | some rem =>
        show "<p class=\"noindent\">".data ++ MdRenderers.subHrNoindentGo f rem
            = "<p class=\"noindent\">".data ++ Renderers.subHrNoindentGo f rem
        rw [ih rem]

/-- Helper: the duplicated poem loops of the two modules agree. -/
theorem renderPoemLines_eq (mdr ri : String → String)
    (lineF : String → Except String String) :
    ∀ (lines : List String) (inC : Bool) (header body : String),
      MdRenderers.renderPoemLines mdr ri lineF inC header body lines
        = Renderers.renderPoemLines mdr ri lineF inC header body lines := by
  intro lines
  induction lines with
  | nil => intro inC header body; cases inC <;> rfl
  | cons line rest ih =>
    intro inC header body
    cases inC with
    | true =>
      simp only [MdRenderers.renderPoemLines, Renderers.renderPoemLines,
        show @MdRenderers.poemBodyStep = @Renderers.poemBodyStep from rfl]
      cases hs : Renderers.poemBodyStep mdr lineF body line with
      | ok b2 =>
        show MdRenderers.renderPoemLines mdr ri lineF true header b2 rest
            = Renderers.renderPoemLines mdr ri lineF true header b2 rest
        exact ih true header b2
      | error e => rfl
    | false =>
      by_cases hb : pyIsBlank line
      · simp only [MdRenderers.renderPoemLines, Renderers.renderPoemLines, hb, if_true]
        exact ih false header body
      · have hb2 : pyIsBlank line = false := by simpa using hb
        by_cases hc : countLeading '#' line = 0
        · simp only [MdRenderers.renderPoemLines, Renderers.renderPoemLines, hb2,
            Bool.false_eq_true, if_false, hc, if_true,
            show @MdRenderers.poemBodyStep = @Renderers.poemBodyStep from rfl]
          cases hs : Renderers.poemBodyStep mdr lineF body line with
          | ok b2 =>
            show MdRenderers.renderPoemLines mdr ri lineF true header b2 rest
                = Renderers.renderPoemLines mdr ri lineF true header b2 rest
            exact ih true header b2
          | error e => rfl
        · by_cases h6 : 6 < countLeading '#' line
          · simp only [MdRenderers.renderPoemLines, Renderers.renderPoemLines, hb2,
              Bool.false_eq_true, if_false, hc, h6, if_true]
          · simp only [MdRenderers.renderPoemLines, Renderers.renderPoemLines, hb2,
              Bool.false_eq_true, if_false, hc, h6]
            exact ih false (header ++ "<h" ++ toString (countLeading '#' line) ++ ">"
              ++ ri (strDrop line (countLeading '#' line)) ++ "</h"
              ++ toString (countLeading '#' line) ++ ">\n\n") body

/-- C10: the duplicated ebook rendering pipelines of md_renderers.py and
renderers.py are extensionally equivalent — for every input text and any
engine (both modules configure their engines identically), the two
`render_story_for_ebook` functions return the same string and the two
`render_poem_for_ebook` functions return the same concatenated
header-plus-body HTML. -/
theorem c10_duplicate_ebook_pipelines (mdr ri : String → String) (text : String) :
    MdRenderers.render_story_for_ebook mdr text
      = Renderers.render_story_for_ebook mdr text
    ∧ MdRenderers.render_poem_for_ebook mdr ri text
      = Renderers.render_poem_for_ebook mdr ri text := by
  constructor
  · show MdRenderers.subHrNoindent (mdr text) = Renderers.subHrNoindent (mdr text)
    unfold MdRenderers.subHrNoindent Renderers.subHrNoindent
    rw [subHrNoindentGo_eq]
  · unfold MdRenderers.render_poem_for_ebook Renderers.render_poem_for_ebook
    unfold MdRenderers.render_poem Renderers.render_poem
    rw [show @MdRenderers.poem_line_to_ebook_html = @Renderers.poem_line_to_ebook_html
      from rfl]
    rw [renderPoemLines_eq]

end Swepub

